import Mathlib

/-!
Shallow embedding of the restausys restaurant-management system (Django app
`core`), covering the data model and operations referenced by the
specification: order pricing, order-item price freezing, inventory deduction,
attendance clock-in/out, kitchen-ticket status updates, table QR provisioning,
user staff-flag derivation, loyalty accrual and the sales CSV export.

Monetary values (`DecimalField`) are modelled as exact rationals (ℚ), since
Python `Decimal` arithmetic on these fields is exact at the precision used.
Python truthiness of a `Decimal` (`not self.final_price`) is equality with 0.
-/

namespace Restausys

/-! ### Menu, inventory and recipe model (src/core/models.py) -/

/-- An inventory row (`InventoryItem`): only the `quantity` field matters for
the claims about stock deduction. -/
structure InventoryItem where
  quantity : ℚ
  deriving Repr, DecidableEq

/-- A recipe row (`RecipeItem`): quantity of an ingredient consumed per one
serving of the menu item, together with the referenced ingredient row. -/
structure RecipeItem where
  quantity_used : ℚ
  ingredient : InventoryItem
  deriving Repr, DecidableEq

/-- A menu item (`MenuItem`): its base price and its recipe rows. -/
structure MenuItem where
  base_price : ℚ
  recipe_items : List RecipeItem
  deriving Repr, DecidableEq

/-- A menu variant (`MenuVariant`): its price modifier. -/
structure MenuVariant where
  price_modifier : ℚ
  deriving Repr, DecidableEq

/-! ### Orders (src/core/models.py, `Order` / `OrderItem`) -/

/-- An order line (`OrderItem`): referenced menu item, optional variant,
ordered quantity and the stored `final_price` column (default 0). -/
structure OrderItem where
  menu_item : MenuItem
  variant : Option MenuVariant
  quantity : ℕ
  final_price : ℚ
  deriving Repr, DecidableEq

/-- `OrderItem.save` (models.py:460-465): when the stored `final_price` is
falsy (Python: a zero `Decimal`), recompute it as (variant price modifier if a
variant is present, else the menu item's base price) × quantity; otherwise
leave the row unchanged. -/
def OrderItem.save (oi : OrderItem) : OrderItem :=
  if oi.final_price = 0 then
    let base_price : ℚ :=
      match oi.variant with
      | some v => v.price_modifier
      | none => oi.menu_item.base_price
    { oi with final_price := base_price * (oi.quantity : ℚ) }
  else oi

/-- An order (`Order`): its line items and the fixed tax and service-charge
amounts. -/
structure Order where
  items : List OrderItem
  tax : ℚ
  service_charge : ℚ
  deriving Repr, DecidableEq

/-- `Order.total_price` (models.py:423-424): the sum of the stored
`final_price` of each line item, plus tax, plus service charge. -/
def Order.total_price (o : Order) : ℚ :=
  (o.items.map (fun i => i.final_price)).sum + o.tax + o.service_charge

/-! ### Stock deduction signal handler (src/core/signals.py, `deduct_stock`) -/

/-- `deduct_stock` (signals.py:126-145): a post-save handler on `OrderItem`.
If the row was not just created it returns at once, leaving every ingredient
row untouched; otherwise, for every recipe row of the referenced menu item, it
replaces the ingredient's quantity by
`max (old - quantity_used * ordered quantity) 0` and persists it.  The result
lists the ingredient rows of the menu item's recipe after the handler ran. -/
def deduct_stock (created : Bool) (inst : OrderItem) : List InventoryItem :=
  if !created then
    inst.menu_item.recipe_items.map (fun recipe => recipe.ingredient)
  else
    inst.menu_item.recipe_items.map (fun recipe =>
      { quantity := max (recipe.ingredient.quantity
          - recipe.quantity_used * (inst.quantity : ℚ)) 0 })

/-! ### Tables and QR provisioning (src/core/models.py, `Table`) -/

/-- A generated QR image, identified by the data it encodes (the third-party
generator `qrcode.make` is outside the repository; the image is determined by
its payload). -/
structure QRImage where
  data : String
  deriving Repr, DecidableEq

/-- A table row (`Table`): primary key (absent before the first save), the
table number, the unique access token and the optional stored QR image. -/
structure Table where
  pk : Option ℕ
  table_number : String
  access_token : String
  qr_code : Option QRImage
  deriving Repr, DecidableEq

/-- `Table.get_absolute_url` (models.py:220-221): the public ordering path for
the table's access token, `/table/<access_token>/` (urls.py:114). -/
def Table.get_absolute_url (t : Table) : String :=
  "/table/" ++ t.access_token ++ "/"

/-- `Table.generate_qr_code` (models.py:223-231): encode the site base URL
plus the table's public path into a QR image and set it on the row (the
enclosing `save` then persists it). -/
def Table.generate_qr_code (site : String) (t : Table) : Table :=
  { t with qr_code := some ⟨site ++ t.get_absolute_url⟩ }

/-- `Table.save` (models.py:233-239): normalize the table number
(`str(...).upper().strip()`), remember whether the row is being created
(`created = not self.pk`), insert/update the row (assigning `newPk` on
insert), and only when it was just created and has no QR image yet, generate
the QR image and persist it in a follow-up update. -/
def Table.save (site : String) (newPk : ℕ) (t : Table) : Table :=
  let t1 : Table := { t with table_number := t.table_number.toUpper.trim }
  let created := t1.pk.isNone
  let t2 : Table := { t1 with pk := some (t1.pk.getD newPk) }
  if created && t2.qr_code.isNone then Table.generate_qr_code site t2 else t2

/-! ### Users (src/core/models.py, `CustomUser`) -/

/-- The role enum of `CustomUser.Roles`. -/
inductive Role where
  | SUPER_ADMIN | MANAGER | SERVER | COOK | CASHIER | CUSTOMER | STAFF
  deriving Repr, DecidableEq

/-- The list `[Roles.MANAGER, Roles.CASHIER, Roles.SUPER_ADMIN]` tested by
`CustomUser.save`. -/
def staffRoles : List Role := [Role.MANAGER, Role.CASHIER, Role.SUPER_ADMIN]

/-- A user row (`CustomUser`): the fields touched by its `save` override. -/
structure CustomUser where
  role : Role
  is_superuser : Bool
  is_staff : Bool
  deriving Repr, DecidableEq

/-- `CustomUser.save` (models.py:84-89): unless the user is a superuser,
`is_staff` is recomputed as membership of the role in Manager/Cashier/
SuperAdmin; a superuser's row is saved untouched. -/
def CustomUser.save (u : CustomUser) : CustomUser :=
  if u.is_superuser then u
  else { u with is_staff := staffRoles.contains u.role }

/-! ### Customers and loyalty (src/core/models.py, `Customer.add_points`) -/

/-- Truncation toward zero: the semantics of Python `Decimal` floor-division
(`//`), which—unlike `int` floor division—rounds the quotient toward zero. -/
def ratTrunc (q : ℚ) : ℤ := if 0 ≤ q then ⌊q⌋ else ⌈q⌉

/-- A customer row (`Customer`): loyalty points and cumulative spend.  The
points counter is an ℤ here because Python attribute arithmetic is plain
integer arithmetic (the column is only checked to be non-negative at the
database layer). -/
structure Customer where
  loyalty_points : ℤ
  total_spent : ℚ
  deriving Repr, DecidableEq

/-- `Customer.add_points` (models.py:159-162): adds
`int(amount // Decimal(10))` to `loyalty_points` and `amount` to
`total_spent`, persisting both fields in one save. -/
def Customer.add_points (c : Customer) (amount : ℚ) : Customer :=
  { loyalty_points := c.loyalty_points + ratTrunc (amount / 10),
    total_spent := c.total_spent + amount }

/-! ### Attendance and clock-in/out (src/core/views.py, `ClockInOutView`) -/

/-- Modelled from the spec: the attendance status enum
(Present/Absent/Late/OnLeave, §3 of the spec).  The `Attendance` model that
`ClockInOutView` uses (fields `staff`, `date`, `clock_in`, `clock_out`,
`status` and a Status enum) is missing from src/ — src/core/models.py holds a
superseded `Attendance` without a `date` or `status` column. -/
inductive AttendanceStatus where
  | PRESENT | ABSENT | LATE | ON_LEAVE
  deriving Repr, DecidableEq

/-- Modelled from the spec: the `Attendance` record operated on by
`ClockInOutView` (views.py:138-171), missing from src/core/models.py: one
record per employee per calendar day (unique constraint on employee+date),
check-in set on creation, optional check-out, status enum.  Staff ids, days
and timestamps are abstracted as naturals. -/
structure Attendance where
  staff : ℕ
  date : ℕ
  clock_in : ℕ
  clock_out : Option ℕ
  status : AttendanceStatus
  deriving Repr, DecidableEq

/-- The lookup key of `get_or_create(staff=user, date=today)`: does a stored
attendance row belong to this employee and this calendar day? -/
def attendanceKey (u d : ℕ) (a : Attendance) : Bool :=
  a.staff == u && a.date == d

/-- The user-facing outcome of a clock-in/out request. -/
inductive ClockMessage where
  | clockedIn | clockedOut | alreadyDone
  deriving Repr, DecidableEq

/-- `ClockInOutView.post` (views.py:154-171) over a table of attendance rows:
`get_or_create` on (staff, today) creates today's record with `clock_in = now`
and status Present when none exists; otherwise, if the record has a check-in
but no check-out yet, it sets `clock_out = now`; otherwise it reports an
informational message and mutates nothing. -/
def clockInOut (db : List Attendance) (u d now : ℕ) :
    List Attendance × ClockMessage :=
  match db.find? (attendanceKey u d) with
  | none =>
      (db ++ [⟨u, d, now, none, AttendanceStatus.PRESENT⟩],
       ClockMessage.clockedIn)
  | some a =>
      if a.clock_out.isNone then
        (db.map (fun b =>
          if attendanceKey u d b then { b with clock_out := some now } else b),
         ClockMessage.clockedOut)
      else (db, ClockMessage.alreadyDone)

/-! ### Kitchen-ticket status update
(src/core/views.py, `UpdateKitchenTicketStatusView.post`) -/

/-- Modelled from the spec: the status choice strings of the `KitchenTicket`
model that `UpdateKitchenTicketStatusView` validates against
(`dict(KitchenTicket.Status.choices)`).  That model (per-OrderItem tickets
with a `status` column) is missing from src/ — src/core/models.py holds a
superseded per-Order `KitchenTicket` without a status — so the choices follow
the spec's ticket life-cycle (Pending, Preparing, Completed in §3, Ready in
§8.8 and as required by the view's promotion check). -/
def kitchenTicketStatusChoices : List String :=
  ["PENDING", "PREPARING", "READY", "COMPLETED"]

/-- The parent order of a ticket, as the view sees it: the statuses of the
kitchen tickets of all its line items (the ticket being updated is index `i`)
and the order's own status. -/
structure KitchenOrder where
  tickets : List String
  order_status : String
  deriving Repr, DecidableEq

/-- The successful outcome of a ticket status update: the ticket statuses and
order status after the request, and the broadcasts emitted, in order. -/
structure TicketUpdateOk where
  tickets : List String
  order_status : String
  broadcasts : List String
  deriving Repr, DecidableEq

/-- `UpdateKitchenTicketStatusView.post` (views.py:445-465): 404 when the
ticket does not exist; reject a requested status outside the enum choices with
an "Invalid status" error; otherwise persist the new status on ticket `i`,
broadcast an "update" event, and — exactly when every ticket of the parent
order is then READY — set the order's status to READY and emit one additional
"order_complete" broadcast. -/
def updateKitchenTicketStatus (st : KitchenOrder) (i : ℕ)
    (new_status : String) : Except String TicketUpdateOk :=
  if i < st.tickets.length then
    if kitchenTicketStatusChoices.contains new_status then
      let tickets2 := st.tickets.set i new_status
      if tickets2.all (fun s => s == "READY") then
        Except.ok ⟨tickets2, "READY", ["update", "order_complete"]⟩
      else
        Except.ok ⟨tickets2, st.order_status, ["update"]⟩
    else Except.error "Invalid status"
  else Except.error "404"

/-! ### Sales CSV export (src/core/views.py, `ExportSalesDataView.get`) -/

/-- A CSV cell: the export writes both strings and numbers. -/
inductive Cell where
  | str : String → Cell
  | num : ℚ → Cell
  deriving Repr, DecidableEq

/-- One paid order as queried by the sales export: its id and creation
timestamp (already rendered as text), the annotated total (absent when the
order has no items, in which case the view writes 0) and its status. -/
structure SalesOrderRow where
  id : String
  created_at : String
  total_price : Option ℚ
  status : String
  deriving Repr, DecidableEq

/-- `ExportSalesDataView.get` (views.py:488-502): writes a header row
`Order ID, Date, Total, Status` followed by one row per paid order with the
annotated total (`o.total_price or 0`). -/
def exportSalesData (orders : List SalesOrderRow) : List (List Cell) :=
  [Cell.str "Order ID", Cell.str "Date", Cell.str "Total", Cell.str "Status"]
    :: orders.map (fun o =>
      [Cell.str o.id, Cell.str o.created_at,
       Cell.num (o.total_price.getD 0), Cell.str o.status])

end Restausys

namespace Restausys

/-! ### Theorems: order pricing (C1), order-item price freezing (C2),
stock deduction (C3, C10) -/

/-- C1: for every Order, `total_price` returns the sum of the stored
`final_price` of each of its OrderItems plus the order's tax plus its service
charge; and it never recomputes an OrderItem price from current menu data —
two orders whose items agree on the stored final prices (and on tax and
service charge) have the same total, whatever their menu items and variants
say. -/
theorem Order.total_price_spec (o o₂ : Order)
    (hitems : o.items.map (fun i => i.final_price)
      = o₂.items.map (fun i => i.final_price))
    (htax : o.tax = o₂.tax) (hsc : o.service_charge = o₂.service_charge) :
    o.total_price
      = (o.items.map (fun i => i.final_price)).sum + o.tax + o.service_charge
    ∧ o.total_price = o₂.total_price := by
  refine ⟨rfl, ?_⟩
  unfold Order.total_price
  rw [hitems, htax, hsc]

/-- Witness for C1: a concrete order (one item with stored final price 5, tax
2, service charge 3) totals 10, and equals the total of an order identical
except for a different menu base price. -/
theorem Order.total_price_spec_witness :
    (Order.mk [⟨⟨1, []⟩, none, 1, 5⟩] 2 3).total_price = 5 + 2 + 3
    ∧ (Order.mk [⟨⟨1, []⟩, none, 1, 5⟩] 2 3).total_price
      = (Order.mk [⟨⟨99, []⟩, none, 1, 5⟩] 2 3).total_price := by
  have h := Order.total_price_spec
    (Order.mk [⟨⟨1, []⟩, none, 1, 5⟩] 2 3)
    (Order.mk [⟨⟨99, []⟩, none, 1, 5⟩] 2 3)
    (by rfl) (by rfl) (by rfl)
  refine ⟨?_, h.2⟩
  rw [h.1]
  norm_num

/-- C2 (counterexample): the claim "subsequent saves of an OrderItem never
change final_price" fails when the stored final price is 0, because the
recompute guard in `OrderItem.save` is Python falsiness.  A first save of an
item for a menu item with base price 0 stores final_price = 0; after the menu
item's base price changes to 5, saving the same row again changes its stored
final_price to 5. -/
theorem OrderItem.save_not_frozen :
    (OrderItem.save ⟨⟨0, []⟩, none, 1, 0⟩).final_price = 0
    ∧ (OrderItem.save
        { OrderItem.save ⟨⟨0, []⟩, none, 1, 0⟩ with menu_item := ⟨5, []⟩ }
      ).final_price
      ≠ (OrderItem.save ⟨⟨0, []⟩, none, 1, 0⟩).final_price := by
  constructor
  · norm_num [OrderItem.save]
  · intro h
    norm_num [OrderItem.save] at h

/-- C2 (amended): on any save of an OrderItem, the stored final_price becomes
(variant price modifier if a variant is present, else the menu item's base
price) × quantity when the stored value is zero (in particular on a first save
without an externally supplied price, since the column defaults to 0), and is
left exactly as it was whenever it is nonzero; no other field changes. -/
theorem OrderItem.save_price_spec (oi : OrderItem) :
    oi.save = { oi with final_price :=
      if oi.final_price = 0 then
        (match oi.variant with
          | some v => v.price_modifier
          | none => oi.menu_item.base_price) * (oi.quantity : ℚ)
      else oi.final_price } := by
  unfold OrderItem.save
  by_cases h : oi.final_price = 0 <;> simp [h]

/-- C3: on creation of an OrderItem (`created = true`), every ingredient of
the referenced menu item's recipe ends with quantity
(old − quantity_used × ordered quantity) when that deduction does not exceed
the available quantity, and 0 (clamped) when it would. -/
theorem deduct_stock_created (inst : OrderItem) :
    deduct_stock true inst = inst.menu_item.recipe_items.map (fun recipe =>
      if recipe.quantity_used * (inst.quantity : ℚ) ≤ recipe.ingredient.quantity
      then ⟨recipe.ingredient.quantity
            - recipe.quantity_used * (inst.quantity : ℚ)⟩
      else ⟨0⟩) := by
  unfold deduct_stock
  simp only [Bool.not_true, cond_eq_if, if_false]
  refine List.map_congr_left (fun recipe _ => ?_)
  by_cases h : recipe.quantity_used * (inst.quantity : ℚ)
      ≤ recipe.ingredient.quantity
  · simp [h, max_eq_left, sub_nonneg.mpr h]
  · have hlt : recipe.ingredient.quantity
        - recipe.quantity_used * (inst.quantity : ℚ) ≤ 0 :=
      sub_nonpos.mpr (le_of_not_le h)
    simp [h, max_eq_right hlt]

/-- Helper: saving an already-persisted table leaves its QR image and its
primary key untouched (`created` is false, so the QR branch is skipped). -/
theorem Table.save_persisted (site : String) (newPk : ℕ) (t : Table)
    (h : t.pk.isSome) :
    (Table.save site newPk t).qr_code = t.qr_code
    ∧ (Table.save site newPk t).pk = t.pk := by
  obtain ⟨p, hp⟩ := Option.isSome_iff_exists.mp h
  simp [Table.save, hp]

/-- C6: table QR provisioning is idempotent.  On the first save of a Table
with no QR image, a QR image encoding the public ordering URL (site base URL
plus `/table/<access_token>/`) is generated and persisted; and once the table
is persisted, saving it any number of further times never regenerates or
replaces its QR image. -/
theorem Table.save_qr_provisioning (site : String) (newPk : ℕ) (t : Table) :
    (t.pk = none → t.qr_code = none →
      (Table.save site newPk t).qr_code
        = some ⟨site ++ "/table/" ++ t.access_token ++ "/"⟩)
    ∧ (∀ n, t.pk.isSome →
      ((Table.save site newPk)^[n] t).qr_code = t.qr_code) := by
  constructor
  · intro hpk hqr
    simp [Table.save, Table.generate_qr_code, Table.get_absolute_url,
      hpk, hqr, String.append_assoc]
  · intro n h
    induction n with
    | zero => rfl
    | succ m ih =>
      rw [Function.iterate_succ_apply']
      have hsome : ((Table.save site newPk)^[m] t).pk.isSome := by
        clear ih
        induction m with
        | zero => exact h
        | succ k ihk =>
          rw [Function.iterate_succ_apply']
          rw [(Table.save_persisted site newPk _ ihk).2]
          exact ihk
      rw [(Table.save_persisted site newPk _ hsome).1, ih]

/-- Witness for C6: a fresh table (token "tok") saved against site base
"http://s" gets a QR image encoding "http://s/table/tok/", and a persisted
table with QR image "q" keeps exactly that image across three further
saves. -/
theorem Table.save_qr_provisioning_witness :
    (Table.save "http://s" 1 ⟨none, "A", "tok", none⟩).qr_code
      = some ⟨"http://s" ++ "/table/" ++ "tok" ++ "/"⟩
    ∧ ((Table.save "http://s" 1)^[3]
        ⟨some 1, "A", "tok", some ⟨"q"⟩⟩).qr_code = some ⟨"q"⟩ :=
  ⟨(Table.save_qr_provisioning "http://s" 1 ⟨none, "A", "tok", none⟩).1 rfl rfl,
   (Table.save_qr_provisioning "http://s" 1
      ⟨some 1, "A", "tok", some ⟨"q"⟩⟩).2 3 rfl⟩

/-- Helper: a record carrying this employee and this day matches the
attendance lookup key, whatever its other fields. -/
theorem attendanceKey_mk (u d n : ℕ) (c : Option ℕ) (s : AttendanceStatus) :
    attendanceKey u d ⟨u, d, n, c, s⟩ = true := by
  simp [attendanceKey]

/-- Helper: updating the check-out of a row does not change which employee and
day it belongs to. -/
theorem attendanceKey_set_clock_out (u d n : ℕ) (b : Attendance) :
    attendanceKey u d { b with clock_out := some n } = attendanceKey u d b :=
  rfl

/-- Helper: a table with no row for this employee and day is left pointwise
unchanged by the check-out update map. -/
theorem clockOut_map_of_absent (u d n : ℕ) (db : List Attendance)
    (hall : ∀ a ∈ db, ¬ attendanceKey u d a) :
    db.map (fun b =>
      if attendanceKey u d b then { b with clock_out := some n } else b)
      = db := by
  conv_rhs => rw [← List.map_id db]
  exact List.map_congr_left (fun a ha => if_neg (hall a ha))

/-- C4: for every employee and calendar day with no attendance row yet, the
first clock-in/out request creates exactly one row with check-in set and
check-out absent; the second request on the same day sets check-out on that
same row; a third request performs no mutation; and the handler preserves the
invariant that at most one attendance row exists per employee per day. -/
theorem clockInOut_daily_spec (db : List Attendance) (u d n₁ n₂ n₃ : ℕ)
    (hkey : db.countP (attendanceKey u d) = 0) :
    clockInOut db u d n₁
      = (db ++ [⟨u, d, n₁, none, AttendanceStatus.PRESENT⟩],
         ClockMessage.clockedIn)
    ∧ (db ++ [(⟨u, d, n₁, none, AttendanceStatus.PRESENT⟩ : Attendance)]).countP
        (attendanceKey u d) = 1
    ∧ clockInOut (db ++ [⟨u, d, n₁, none, AttendanceStatus.PRESENT⟩]) u d n₂
      = (db ++ [⟨u, d, n₁, some n₂, AttendanceStatus.PRESENT⟩],
         ClockMessage.clockedOut)
    ∧ clockInOut (db ++ [⟨u, d, n₁, some n₂, AttendanceStatus.PRESENT⟩]) u d n₃
      = (db ++ [⟨u, d, n₁, some n₂, AttendanceStatus.PRESENT⟩],
         ClockMessage.alreadyDone)
    ∧ (∀ db₂ n, db₂.countP (attendanceKey u d) ≤ 1 →
        ((clockInOut db₂ u d n).1).countP (attendanceKey u d) ≤ 1) := by
  have hall : ∀ a ∈ db, ¬ attendanceKey u d a := List.countP_eq_zero.mp hkey
  have hfind : db.find? (attendanceKey u d) = none := List.find?_eq_none.mpr hall
  refine ⟨?_, ?_, ?_, ?_, ?_⟩
  · simp [clockInOut, hfind]
  · rw [List.countP_append, hkey, List.countP_singleton]
    simp [attendanceKey]
  · rw [clockInOut, List.find?_append, hfind, Option.none_or,
      List.find?_cons_of_pos _
        (attendanceKey_mk u d n₁ none AttendanceStatus.PRESENT)]
    simp [List.map_append, clockOut_map_of_absent u d n₂ db hall,
      attendanceKey_mk]
  · rw [clockInOut, List.find?_append, hfind, Option.none_or,
      List.find?_cons_of_pos _
        (attendanceKey_mk u d n₁ (some n₂) AttendanceStatus.PRESENT)]
    simp
  · intro db₂ n hle
    rw [clockInOut]
    cases hf : db₂.find? (attendanceKey u d) with
    | none =>
      have hzero : db₂.countP (attendanceKey u d) = 0 :=
        List.countP_eq_zero.mpr (List.find?_eq_none.mp hf)
      simp [List.countP_append, hzero, List.countP_singleton, attendanceKey]
    | some a =>
      cases ha : a.clock_out.isNone with
      | true =>
        simp only [ha, if_pos, List.countP_map]
        calc db₂.countP ((attendanceKey u d) ∘ (fun b =>
                if attendanceKey u d b then { b with clock_out := some n }
                else b))
            = db₂.countP (attendanceKey u d) := by
              refine List.countP_congr (fun b _ => ?_)
              by_cases hb : attendanceKey u d b = true
              · simp [Function.comp, hb, attendanceKey_set_clock_out]
              · simp [Function.comp, hb]
          _ ≤ 1 := hle
      | false => simpa [ha] using hle

/-- Witness for C4: on an empty attendance table, employee 0 on day 0 clocks
in at time 1 (one row, no check-out), clocks out at time 2 (same row gains the
check-out), and a third request at time 3 changes nothing. -/
theorem clockInOut_daily_spec_witness :
    clockInOut [] 0 0 1
      = ([⟨0, 0, 1, none, AttendanceStatus.PRESENT⟩], ClockMessage.clockedIn)
    ∧ clockInOut [⟨0, 0, 1, none, AttendanceStatus.PRESENT⟩] 0 0 2
      = ([⟨0, 0, 1, some 2, AttendanceStatus.PRESENT⟩], ClockMessage.clockedOut)
    ∧ clockInOut [⟨0, 0, 1, some 2, AttendanceStatus.PRESENT⟩] 0 0 3
      = ([⟨0, 0, 1, some 2, AttendanceStatus.PRESENT⟩], ClockMessage.alreadyDone) := by
  have h := clockInOut_daily_spec [] 0 0 1 2 3 rfl
  exact ⟨h.1, h.2.2.1, h.2.2.2.1⟩

/-- C7 (counterexample): the claim "on every save of a User, is_staff is
recomputed from the role" fails for superusers: `CustomUser.save` only
recomputes `is_staff` when `is_superuser` is false.  A superuser with role
Server and an externally supplied `is_staff = true` keeps `is_staff = true`
after saving, although Server is not among Manager/Cashier/SuperAdmin. -/
theorem CustomUser.save_superuser_counterexample :
    (CustomUser.save ⟨Role.SERVER, true, true⟩).is_staff = true
    ∧ staffRoles.contains Role.SERVER = false := by
  decide

/-- C7 (amended): on every save of a User who is not a superuser, `is_staff`
is recomputed from the role — true exactly when the role is Manager, Cashier
or SuperAdmin, overriding any externally supplied value — while a superuser's
row is saved unchanged. -/
theorem CustomUser.save_staff_flag_spec (u : CustomUser) :
    (u.is_superuser = false →
      ((u.save).is_staff = true ↔
        (u.role = Role.MANAGER ∨ u.role = Role.CASHIER
          ∨ u.role = Role.SUPER_ADMIN)))
    ∧ (u.is_superuser = true → u.save = u) := by
  constructor
  · intro hsu
    simp [CustomUser.save, hsu, staffRoles, List.contains]
  · intro hsu
    simp [CustomUser.save, hsu]

/-- Witness for C7 (amended): a non-superuser Manager whose incoming
`is_staff` is false ends up with `is_staff = true` after saving. -/
theorem CustomUser.save_staff_flag_witness :
    (CustomUser.save ⟨Role.MANAGER, false, false⟩).is_staff = true :=
  ((CustomUser.save_staff_flag_spec ⟨Role.MANAGER, false, false⟩).1 rfl).mpr (Or.inl rfl)

/-- C8: for every Customer and every non-negative spend amount, crediting
loyalty points adds exactly ⌊amount / 10⌋ points and exactly the amount to
`total_spent`, in exact (rational/decimal) arithmetic. -/
theorem Customer.add_points_spec (c : Customer) (amount : ℚ)
    (h : 0 ≤ amount) :
    (c.add_points amount).loyalty_points = c.loyalty_points + ⌊amount / 10⌋
    ∧ (c.add_points amount).total_spent = c.total_spent + amount := by
  have hq : 0 ≤ amount / 10 := by positivity
  constructor
  · simp [Customer.add_points, ratTrunc, hq]
  · rfl

/-- Witness for C8: crediting a fresh customer with a spend of 47 currency
units adds floor(47/10) = 4 loyalty points and 47 to total_spent. -/
theorem Customer.add_points_spec_witness :
    (Customer.add_points ⟨0, 0⟩ 47).loyalty_points = 4
    ∧ (Customer.add_points ⟨0, 0⟩ 47).total_spent = 47 := by
  have h := Customer.add_points_spec ⟨0, 0⟩ 47 (by norm_num)
  refine ⟨?_, ?_⟩
  · rw [h.1]
    norm_num
  · rw [h.2]
    norm_num

/-- Helper: the Bool completeness test of the view (`all tickets READY`)
agrees with the propositional statement "every ticket of the order is
Ready". -/
theorem allReady_iff (l : List String) :
    (l.all (fun s => s == "READY") = true) ↔ ∀ t ∈ l, t = "READY" := by
  simp [List.all_eq_true]

/-- C5: updating the status of ticket `i` of an order validates the requested
status against the ticket status enum — an unrecognized value is rejected with
an error and nothing changes — and a recognized value is persisted on that
ticket; exactly when every ticket of the parent order is then Ready, the
order's status becomes Ready and the broadcasts are the "update" event plus
one additional "order_complete" event; when some ticket of the order is not
Ready, the order's status is left unchanged and only the "update" broadcast is
emitted. -/
theorem updateKitchenTicketStatus_spec (st : KitchenOrder) (i : ℕ)
    (s : String) (hi : i < st.tickets.length) :
    (kitchenTicketStatusChoices.contains s = false →
      updateKitchenTicketStatus st i s = Except.error "Invalid status")
    ∧ (kitchenTicketStatusChoices.contains s = true →
      ∃ r, updateKitchenTicketStatus st i s = Except.ok r
        ∧ r.tickets = st.tickets.set i s
        ∧ ((∀ t ∈ st.tickets.set i s, t = "READY") →
            r.order_status = "READY"
            ∧ r.broadcasts = ["update", "order_complete"])
        ∧ ((∃ t ∈ st.tickets.set i s, t ≠ "READY") →
            r.order_status = st.order_status
            ∧ r.broadcasts = ["update"])) := by
  constructor
  · intro hs
    have hmem : s ∉ kitchenTicketStatusChoices := by simpa using hs
    simp [updateKitchenTicketStatus, hi, hmem]
  · intro hs
    have hmem : s ∈ kitchenTicketStatusChoices := by simpa using hs
    cases hall : (st.tickets.set i s).all (fun x => x == "READY") with
    | true =>
      have hforall := (allReady_iff _).mp hall
      refine ⟨⟨st.tickets.set i s, "READY", ["update", "order_complete"]⟩,
        ?_, rfl, fun _ => ⟨rfl, rfl⟩, ?_⟩
      · simp [updateKitchenTicketStatus, hi, hmem]
        exact hforall
      · rintro ⟨t, ht, hne⟩
        exact absurd (hforall t ht) hne
    | false =>
      have hnot : ¬ ∀ t ∈ st.tickets.set i s, t = "READY" := fun hf => by
        rw [(allReady_iff _).mpr hf] at hall
        cases hall
      refine ⟨⟨st.tickets.set i s, st.order_status, ["update"]⟩,
        ?_, rfl, fun hf => absurd hf hnot, fun _ => ⟨rfl, rfl⟩⟩
      simp [updateKitchenTicketStatus, hi, hmem, hnot]

/-- Witness for C5: on an order whose two tickets are Pending and Ready,
setting ticket 0 to READY makes every ticket Ready: the order is promoted to
READY and the broadcasts are the update event plus exactly one additional
order_complete event. -/
theorem updateKitchenTicketStatus_spec_witness :
    ∃ r, updateKitchenTicketStatus ⟨["PENDING", "READY"], "IN_PROGRESS"⟩ 0
        "READY" = Except.ok r
      ∧ r.tickets = ["READY", "READY"]
      ∧ r.order_status = "READY"
      ∧ r.broadcasts = ["update", "order_complete"] := by
  obtain ⟨r, hok, ht, hcomp, _⟩ :=
    (updateKitchenTicketStatus_spec ⟨["PENDING", "READY"], "IN_PROGRESS"⟩ 0
      "READY" (by decide)).2 (by decide)
  obtain ⟨hos, hb⟩ := hcomp (by decide)
  exact ⟨r, hok, ht, hos, hb⟩

/-- C9 (counterexample): the sales export's header row is
`Order ID, Date, Total, Status`, not the documented seven-column list
`Order ID, Date, Time, User, Total Price, Status, Table Number`. -/
theorem exportSalesData_header_ne_documented :
    (exportSalesData []).headI
      ≠ ["Order ID", "Date", "Time", "User", "Total Price", "Status",
          "Table Number"].map Cell.str := by
  decide

/-- C9 (amended): the sales CSV export always writes as its first row the
header columns `Order ID, Date, Total, Status`, whatever the queried orders
are. -/
theorem exportSalesData_header (orders : List SalesOrderRow) :
    (exportSalesData orders).head?
      = some (["Order ID", "Date", "Total", "Status"].map Cell.str) := rfl

/-- C10: saving an already-existing OrderItem again (`created = false`) leaves
the quantity of every InventoryItem in the recipe unchanged: the handler
returns before touching any ingredient row. -/
theorem deduct_stock_update_frame (inst : OrderItem) :
    deduct_stock false inst
      = inst.menu_item.recipe_items.map (fun recipe => recipe.ingredient) := by
  unfold deduct_stock
  simp

end Restausys
